import Mathlib

/-!
Verification of the streaming-event state machine of the research-agent
frontend (`src/hooks/useWsStream.ts`) and its REST helper
(`src/lib/apiClient.ts`).

The embedding translates the TypeScript source faithfully:
* `ChatMessage` mirrors the `ChatMessage` interface; optional boolean
  fields (`isStreaming?`, `isWaiting?`, `isError?`) become `Bool` with
  default `false` (JS truthiness of `undefined` and `false` coincide in
  every check the source performs), optional numbers become `Option Nat`.
* The mutable hook state (`status`, `messages`, `streamQueue`,
  `idCounter`) becomes the record `StreamState`; the character queue is a
  `List Char` (a JS string viewed as its characters).
* `ws.onmessage`'s switch becomes the pure transition `processEvent`;
  the `setInterval` typing-effect body becomes `tick`.
* `Date.now()` is passed in as an explicit `now : Nat`.  The random
  base-36 suffix of `generateUniqueId` is omitted from the id text (it
  only affects id uniqueness, which no claim here depends on); the
  counter increment is kept exactly where the source calls the
  generator.
-/

/-- JS truthiness of an optional number (`undefined` and `0` are falsy). -/
def truthyNat : Option Nat → Bool
  | none => false
  | some n => n != 0

/-- JS truthiness of an optional string (`undefined` and `""` are falsy). -/
def truthyStr : Option String → Bool
  | none => false
  | some s => !s.isEmpty

/-- One entry of the timeline, mirroring the `ChatMessage` interface. -/
structure ChatMessage where
  id : String
  isUser : Bool
  content : String
  isStreaming : Bool := false
  isWaiting : Bool := false
  startTime : Option Nat := none
  endTime : Option Nat := none
  agent : Option String := none
  isError : Bool := false
deriving DecidableEq, Repr

/-- Connection status of the hook (`useState<"idle" | "connecting" | "streaming" | "error">`). -/
inductive ConnStatus where
  | idle
  | connecting
  | streaming
  | error
deriving DecidableEq, Repr

/-- The decoded inbound wire events (`WsEvent` union); `unclassified`
is the `default` switch arm for unrecognized tags, carrying the optional
`content` field. -/
inductive WsEvent where
  | agent_start (agent : String) (status : String)
  | agent_output (agent_name : String) (content : String)
  | final_answer (content : String)
  | error (message : String)
  | system_abort (message : String)
  | thoughts_and_tasks (content : String) (tasks : List (String × String))
  | task_delegated (agent_name : String) (task : String)
  | loop_retry (message : String)
  | simplification_complete (agent_name : String) (content : String)
  | validation_score (agent_name : String) (score : Int)
  | unclassified (content : Option String)
deriving DecidableEq, Repr

/-- The hook's mutable state: connection status, the message timeline,
the reveal queue and the id counter ref. -/
structure StreamState where
  status : ConnStatus := .idle
  messages : List ChatMessage := []
  streamQueue : List Char := []
  idCounter : Nat := 0
deriving DecidableEq, Repr

/-- Initial hook state. -/
def initialState : StreamState := {}

/-- `specialAgents` array from the source. -/
def specialAgents : List String :=
  ["Architect Agent", "Task Agents", "Simplifier Agent", "Validator Agent", "Final Synthesizer"]

/-- `agentNameMap` record from the source (server name to display name). -/
def agentNameMap (a : String) : Option String :=
  if a = "Architect Agent" then some "Eleanor"
  else if a = "Task Agents" then some "Layla"
  else if a = "Simplifier Agent" then some "Nova"
  else if a = "Validator Agent" then some "Isaac"
  else if a = "Final Synthesizer" then some "Final Synthesizer"
  else none

/-- `generateUniqueId`: `prefix-Date.now()-counter-random`; the random
suffix is omitted (see module comment). -/
def generateUniqueId (pfx : String) (now : Nat) (counter : Nat) : String :=
  pfx ++ "-" ++ toString now ++ "-" ++ toString counter

/-- Guard of the `agent_start` case: in `specialAgents` and none of the
three excluded orchestrator names. -/
def isHeadlineStart (a : String) : Bool :=
  specialAgents.contains a && a != "Task Agents" && a != "Architect Agent"
    && a != "Validator Agent"

/-- The fresh streaming message pushed by the `default` switch arm. -/
def streamingMessage (now : Nat) (counter : Nat) : ChatMessage :=
  { id := generateUniqueId "streaming" now counter
    isUser := false
    content := ""
    isStreaming := true
    startTime := some now }

/-- The `ws.onmessage` switch: one decoded event applied to the hook
state.  Each branch mirrors the corresponding `case` of the source. -/
def processEvent (now : Nat) (e : WsEvent) (st : StreamState) : StreamState :=
  match e with
  | .agent_start a _status =>
      if isHeadlineStart a then
        { st with
          idCounter := st.idCounter + 1
          messages := st.messages ++ [{
            id := generateUniqueId a now (st.idCounter + 1)
            isUser := false
            agent := some ((agentNameMap a).getD a)
            content := ""
            isWaiting := true
            startTime := some now }] }
      else st
  | .thoughts_and_tasks _ _ => st
  | .task_delegated name _task =>
      { st with
        idCounter := st.idCounter + 1
        messages := st.messages ++ [{
          id := generateUniqueId ("task-" ++ name) now (st.idCounter + 1)
          isUser := false
          agent := some name
          content := ""
          isWaiting := true
          startTime := some now }] }
  | .agent_output name c =>
      { st with
        messages := st.messages.map (fun m =>
          if m.agent == some name && m.isWaiting then
            { m with content := c, isWaiting := false, endTime := some now }
          else m) }
  | .simplification_complete _name c =>
      match st.messages.getLast? with
      | some last =>
          if last.isWaiting && last.agent == agentNameMap "Simplifier Agent" then
            { st with
              messages := st.messages.dropLast ++ [{ last with
                content := c, isWaiting := false, endTime := some now }] }
          else
            { st with
              idCounter := st.idCounter + 1
              messages := st.messages ++ [{
                id := generateUniqueId "simplification" now (st.idCounter + 1)
                isUser := false
                agent := agentNameMap "Simplifier Agent"
                content := c }] }
      | none =>
          { st with
            idCounter := st.idCounter + 1
            messages := st.messages ++ [{
              id := generateUniqueId "simplification" now (st.idCounter + 1)
              isUser := false
              agent := agentNameMap "Simplifier Agent"
              content := c }] }
  | .validation_score _ _ => st
  | .loop_retry _ => st
  | .final_answer c =>
      match st.messages.getLast? with
      | some last =>
          if last.isStreaming || last.isWaiting then
            { st with
              streamQueue := []
              messages := st.messages.dropLast ++ [{ last with
                content := c
                isStreaming := false
                isWaiting := false
                endTime := if truthyNat last.startTime then some now else none }] }
          else
            { st with
              streamQueue := []
              idCounter := st.idCounter + 1
              messages := st.messages ++ [{
                id := generateUniqueId "final" now (st.idCounter + 1)
                isUser := false
                agent := agentNameMap "Final Synthesizer"
                content := c
                isStreaming := false }] }
      | none =>
          { st with
            streamQueue := []
            idCounter := st.idCounter + 1
            messages := st.messages ++ [{
              id := generateUniqueId "final" now (st.idCounter + 1)
              isUser := false
              agent := agentNameMap "Final Synthesizer"
              content := c
              isStreaming := false }] }
  | .system_abort m =>
      { st with
        status := .error
        idCounter := st.idCounter + 1
        messages := st.messages ++ [{
          id := generateUniqueId "error" now (st.idCounter + 1)
          isUser := false
          content := m
          isError := true }] }
  | .error m =>
      { st with
        status := .error
        idCounter := st.idCounter + 1
        messages := st.messages ++ [{
          id := generateUniqueId "error" now (st.idCounter + 1)
          isUser := false
          content := m
          isError := true }] }
  | .unclassified c? =>
      let enq := (c?.getD "").toList
      match st.messages.getLast? with
      | some last =>
          if last.isWaiting then
            { st with
              streamQueue := st.streamQueue ++ enq
              messages := st.messages.dropLast ++ [{ last with
                content := "", isWaiting := false, isStreaming := true }] }
          else if last.isUser || (!last.isStreaming && !last.isWaiting) then
            { st with
              streamQueue := st.streamQueue ++ enq
              idCounter := st.idCounter + 1
              messages := st.messages ++ [streamingMessage now (st.idCounter + 1)] }
          else
            { st with streamQueue := st.streamQueue ++ enq }
      | none =>
          { st with
            streamQueue := st.streamQueue ++ enq
            idCounter := st.idCounter + 1
            messages := st.messages ++ [streamingMessage now (st.idCounter + 1)] }

/-- One firing of the typing-effect `setInterval` callback: pop one
character off the reveal queue and append it to the last message iff
that message is streaming. -/
def tick (st : StreamState) : StreamState :=
  match st.streamQueue with
  | [] => st
  | c :: rest =>
      match st.messages.getLast? with
      | some last =>
          if last.isStreaming then
            { st with
              streamQueue := rest
              messages := st.messages.dropLast ++ [{ last with content := last.content.push c }] }
          else
            { st with streamQueue := rest }
      | none => { st with streamQueue := rest }

/-- The transport action `sendMessage` takes after updating the
timeline: send on the open socket, or connect passing the prompt as the
initial one. -/
inductive SendAction where
  | sendPrompt (prompt : String)
  | connectWith (prompt : String)
deriving DecidableEq, Repr

/-- `sendMessage`: append the user message, then either send on the open
socket or connect with the prompt as initial prompt. -/
def sendMessage (now : Nat) (wsOpen : Bool) (prompt : String) (st : StreamState) :
    StreamState × SendAction :=
  ({ st with
     idCounter := st.idCounter + 1
     messages := st.messages ++ [{
       id := generateUniqueId "user" now (st.idCounter + 1)
       isUser := true
       content := prompt }] },
   if wsOpen then .sendPrompt prompt else .connectWith prompt)

/-- One atomic mutation of the hook state: either an inbound decoded
event or one reveal tick (the source serializes these on the JS event
loop). -/
inductive Step where
  | ev (now : Nat) (e : WsEvent)
  | tick
deriving Repr

/-- Apply one step. -/
def applyStep (st : StreamState) (s : Step) : StreamState :=
  match s with
  | .ev now e => processEvent now e st
  | .tick => tick st

/-- Apply a whole sequence of steps in arrival order. -/
def run (st : StreamState) (steps : List Step) : StreamState :=
  steps.foldl applyStep st

/-- The one-message streaming state with a queued character used by the
C5 witness. -/
def tickWitnessState : StreamState :=
  { messages := [{ id := "w-1", isUser := false, content := "a", isStreaming := true }],
    streamQueue := ['b'] }

/-- The authenticated user inside the external session object
(`session.user` with its `id`); the `id` is optional to model the
defensive `session?.user?.id` chain. -/
structure SessionUser where
  id : Option String
deriving DecidableEq, Repr

/-- The external next-auth session object as `apiClient` consumes it. -/
structure Session where
  user : Option SessionUser
deriving DecidableEq, Repr

/-- `session?.user?.id`. -/
def sessionUserId : Option Session → Option String
  | none => none
  | some s =>
      match s.user with
      | none => none
      | some u => u.id

/-- The HTTP request `apiClient` hands to `fetch`: URL, method, the two
headers it always sets, and the optional JSON body. -/
structure ApiRequest where
  url : String
  method : String
  contentType : String
  xUserId : String
  body : Option String
deriving DecidableEq, Repr

/-- `apiClient` up to the point of issuing the fetch: validate the base
URL and the session identity, else build the request.  The network call
and response handling happen outside the model. -/
def apiClient (base : Option String) (endpoint : String) (method : String)
    (sess : Option Session) (data : Option String) : Except String ApiRequest :=
  if !(truthyStr base) then .error "AGENT_SERVER_BASE_URL is not defined."
  else if !(truthyStr (sessionUserId sess)) then .error "User session is not available."
  else .ok {
    url := base.getD "" ++ endpoint
    method := method
    contentType := "application/json"
    xUserId := (sessionUserId sess).getD ""
    body := data }

/-- The conversation payload of the history collaborator. -/
structure Conversation where
  thread_id : String
  messages : List ChatMessage
deriving DecidableEq, Repr

/-- What one invocation of the conversation `queryFn` does. -/
inductive QueryOutcome where
  | resolved (c : Conversation)
  | request (r : ApiRequest)
  | thrown (msg : String)
deriving DecidableEq, Repr

/-- The `queryFn` of the conversation query in `useWsStream`: with no
session or no (truthy) thread id it resolves to the empty conversation,
otherwise it calls `apiClient` on `/conversation/` plus the thread id. -/
def conversationQueryFn (base : Option String) (sess : Option Session)
    (threadId : Option String) : QueryOutcome :=
  if !(sess.isSome) || !(truthyStr threadId) then .resolved { thread_id := "", messages := [] }
  else
    match apiClient base ("/conversation/" ++ threadId.getD "") "GET" sess none with
    | .ok r => .request r
    | .error msg => .thrown msg

/-! ### Helper lemmas about last-element updates -/

theorem ne_nil_of_getLast?_eq_some {α : Type _} {l : List α} {b : α}
    (h : l.getLast? = some b) : l ≠ [] := by
  intro hl
  rw [hl] at h
  exact Option.noConfusion h

theorem length_dropLast_append {α : Type _} (l : List α) (b : α) :
    (l.dropLast ++ [b]).length = l.length - 1 + 1 := by
  simp [List.length_append, List.length_dropLast]

theorem getElem?_dropLast_append_of_lt {α : Type _} {l : List α} {b : α} {i : Nat}
    (h : i < l.length - 1) : (l.dropLast ++ [b])[i]? = l[i]? := by
  rw [List.getElem?_append_left (by simp [List.length_dropLast]; omega),
    List.dropLast_eq_take, List.getElem?_take, if_pos h]

theorem getElem?_dropLast_append_last {α : Type _} {l : List α} (b : α) :
    (l.dropLast ++ [b])[l.length - 1]? = some b := by
  rw [List.getElem?_append, if_neg (by simp [List.length_dropLast])]
  simp [List.length_dropLast]

theorem map_eq_self_of_fixed {α : Type _} (f : α → α) :
    ∀ (l : List α), (∀ a ∈ l, f a = a) → l.map f = l := by
  intro l h
  induction l with
  | nil => rfl
  | cons x xs ih =>
      simp only [List.map_cons]
      rw [h x (by simp), ih (fun a ha => h a (by simp [ha]))]

theorem tick_of_empty_queue {st : StreamState} (h : st.streamQueue = []) :
    tick st = st := by
  unfold tick
  rw [h]

theorem iterate_tick_of_empty_queue {st : StreamState} (h : st.streamQueue = [])
    (n : Nat) : tick^[n] st = st := by
  induction n with
  | zero => rfl
  | succ k ih => rw [Function.iterate_succ_apply, tick_of_empty_queue h, ih]

/-! ### Claim theorems -/

/-- C1: processing a `final_answer` event with payload `c` empties the
reveal queue and leaves the last timeline message with content exactly
`c`, neither streaming nor waiting (finalizing the last message in place
when it was waiting or streaming — same length, same prefix — otherwise
appending a new final message authored by the Final Synthesizer), so no
number of subsequent reveal ticks changes the timeline. -/
theorem final_answer_supersedes_reveal (st : StreamState) (now : Nat) (c : String) :
    (processEvent now (.final_answer c) st).streamQueue = [] ∧
    ((processEvent now (.final_answer c) st).messages.getLast?).map (·.content) = some c ∧
    ((processEvent now (.final_answer c) st).messages.getLast?).map (·.isStreaming) = some false ∧
    ((processEvent now (.final_answer c) st).messages.getLast?).map (·.isWaiting) = some false ∧
    (∀ n, tick^[n] (processEvent now (.final_answer c) st) = processEvent now (.final_answer c) st) ∧
    (match st.messages.getLast? with
     | some last =>
         if last.isStreaming || last.isWaiting then
           (processEvent now (.final_answer c) st).messages.length = st.messages.length ∧
           (processEvent now (.final_answer c) st).messages.dropLast = st.messages.dropLast
         else
           (processEvent now (.final_answer c) st).messages = st.messages ++
             [{ id := generateUniqueId "final" now (st.idCounter + 1), isUser := false,
                agent := some "Final Synthesizer", content := c, isStreaming := false }]
     | none =>
         (processEvent now (.final_answer c) st).messages =
           [{ id := generateUniqueId "final" now (st.idCounter + 1), isUser := false,
              agent := some "Final Synthesizer", content := c, isStreaming := false }]) := by
  rcases hl : st.messages.getLast? with _ | last
  · have hnil : st.messages = [] := List.getLast?_eq_none_iff.mp hl
    refine ⟨?_, ?_, ?_, ?_, ?_, ?_⟩ <;>
      simp [processEvent, hl, hnil, agentNameMap, iterate_tick_of_empty_queue]
  · by_cases hb : last.isStreaming || last.isWaiting
    · have hne : st.messages ≠ [] := ne_nil_of_getLast?_eq_some hl
      have h1 : 1 ≤ st.messages.length := List.length_pos.mpr hne
      refine ⟨?_, ?_, ?_, ?_, ?_, ?_⟩ <;>
        simp only [processEvent, hl, hb, if_true, List.getLast?_concat, Option.map_some] <;>
        simp [iterate_tick_of_empty_queue, length_dropLast_append, List.dropLast_concat, hl, hb]
      omega
    · refine ⟨?_, ?_, ?_, ?_, ?_, ?_⟩ <;>
        simp only [processEvent, hl, hb, if_false, List.getLast?_concat, Option.map_some] <;>
        simp [iterate_tick_of_empty_queue, agentNameMap, hl, hb]

/-- C3 counterexample: the spec scenario
`agent_start{agent:"Eleanor"}` then
`agent_output{agent_name:"Eleanor", content:"plan ready"}` on an empty
timeline leaves the timeline EMPTY — it does not produce the claimed
one-message timeline, because "Eleanor" is a display name and the
`agent_start` guard only accepts the server names in `specialAgents`
minus the three excluded orchestrators. -/
theorem eleanor_scenario_cex :
    (run initialState [.ev 1 (.agent_start "Eleanor" "started"),
                       .ev 2 (.agent_output "Eleanor" "plan ready")]).messages = [] ∧
    ¬ ∃ m : ChatMessage,
      (run initialState [.ev 1 (.agent_start "Eleanor" "started"),
                         .ev 2 (.agent_output "Eleanor" "plan ready")]).messages = [m] := by
  refine ⟨by decide, ?_⟩
  rintro ⟨m, hm⟩
  have h : (run initialState [.ev 1 (.agent_start "Eleanor" "started"),
      .ev 2 (.agent_output "Eleanor" "plan ready")]).messages = [] := by decide
  rw [h] at hm
  exact List.noConfusion hm

/-- C3 amended: starting from the empty timeline, processing
`agent_start{agent:"Eleanor"}` followed by
`agent_output{agent_name:"Eleanor", content:"plan ready"}` leaves the
state unchanged (the timeline stays empty): "Eleanor" fails the
headline-agent guard, so no waiting message is ever created and the
`agent_output` finds nothing to finalize. -/
theorem eleanor_scenario_amended :
    run initialState [.ev 1 (.agent_start "Eleanor" "started"),
                      .ev 2 (.agent_output "Eleanor" "plan ready")] = initialState ∧
    isHeadlineStart "Eleanor" = false := by decide

/-- C4 counterexample: two consecutive `agent_start` events for the
"Simplifier Agent" leave TWO simultaneously-waiting messages authored by
the same agent ("Nova") in the timeline — the claimed single-active-slot
invariant does not hold, because the second `agent_start` is accepted
even though the first message has not reached final or error state. -/
theorem single_active_slot_cex :
    ((run initialState [.ev 1 (.agent_start "Simplifier Agent" "running"),
                        .ev 2 (.agent_start "Simplifier Agent" "running")]).messages.countP
        (fun m => m.agent == some "Nova" && (m.isWaiting || m.isStreaming))) = 2 := by
  decide

/-- C4 amended: an `agent_start` event for a recognized headline agent
always appends a fresh waiting message, unconditionally — in particular a
second `agent_start` for the same agent is accepted even while the prior
message for that agent is still waiting or streaming, so several
simultaneously waiting messages for one agent can coexist. -/
theorem agent_start_appends_unconditionally (st : StreamState) (now : Nat) (a s : String)
    (h : isHeadlineStart a = true) :
    (processEvent now (.agent_start a s) st).messages =
      st.messages ++ [{
        id := generateUniqueId a now (st.idCounter + 1)
        isUser := false
        agent := some ((agentNameMap a).getD a)
        content := ""
        isWaiting := true
        startTime := some now }] := by
  simp [processEvent, h]

/-- C4 amended, witness: the append happens even on a timeline that
already holds a waiting message for the same agent. -/
theorem agent_start_appends_unconditionally_witness :
    (processEvent 2 (.agent_start "Simplifier Agent" "running")
        (processEvent 1 (.agent_start "Simplifier Agent" "running") initialState)).messages =
      (processEvent 1 (.agent_start "Simplifier Agent" "running") initialState).messages ++ [{
        id := generateUniqueId "Simplifier Agent" 2
          ((processEvent 1 (.agent_start "Simplifier Agent" "running") initialState).idCounter + 1)
        isUser := false
        agent := some ((agentNameMap "Simplifier Agent").getD "Simplifier Agent")
        content := ""
        isWaiting := true
        startTime := some 2 }] :=
  agent_start_appends_unconditionally
    (processEvent 1 (.agent_start "Simplifier Agent" "running") initialState)
    2 "Simplifier Agent" "running" (by decide)

/-- C8: an `error` or `system_abort` event with message text `m` appends
exactly one new error-state message with content `m` (all existing
messages left unchanged, since the new list is the old one with a single
message appended) and sets the connection status to error; in particular
`error{message:"overloaded"}` on the empty timeline yields the
one-element timeline holding a non-user error message with content
"overloaded" and connection status error. -/
theorem error_event_appends_terminal (st : StreamState) (now : Nat) (m : String) :
    ((processEvent now (.error m) st).messages = st.messages ++
       [{ id := generateUniqueId "error" now (st.idCounter + 1), isUser := false,
          content := m, isError := true }]) ∧
    (processEvent now (.error m) st).status = .error ∧
    ((processEvent now (.system_abort m) st).messages = st.messages ++
       [{ id := generateUniqueId "error" now (st.idCounter + 1), isUser := false,
          content := m, isError := true }]) ∧
    (processEvent now (.system_abort m) st).status = .error ∧
    ((processEvent 7 (.error "overloaded") initialState).messages.map
        (fun x => (x.content, x.isError, x.isUser)) = [("overloaded", true, false)]) ∧
    (processEvent 7 (.error "overloaded") initialState).status = .error := by
  refine ⟨?_, ?_, ?_, ?_, by decide, by decide⟩ <;> simp [processEvent]

/-- C10: `sendMessage` appends exactly one message to the end of the
timeline — a user message carrying the prompt, neither waiting, streaming
nor error — alters no other state (status and reveal queue unchanged),
and transmits the prompt immediately when the socket is open, otherwise
passes it as the initial prompt of a fresh connection. -/
theorem sendMessage_appends_single_user (st : StreamState) (now : Nat) (p : String)
    (wsOpen : Bool) :
    (sendMessage now wsOpen p st).1.messages = st.messages ++
      [{ id := generateUniqueId "user" now (st.idCounter + 1), isUser := true, content := p }] ∧
    (((sendMessage now wsOpen p st).1.messages.getLast?).map
        (fun m => (m.isUser, m.content, m.isWaiting, m.isStreaming, m.isError)) =
      some (true, p, false, false, false)) ∧
    (sendMessage now wsOpen p st).1.status = st.status ∧
    (sendMessage now wsOpen p st).1.streamQueue = st.streamQueue ∧
    (sendMessage now wsOpen p st).2 =
      (if wsOpen then .sendPrompt p else .connectWith p) := by
  refine ⟨rfl, ?_, rfl, rfl, rfl⟩
  simp [sendMessage, List.getLast?_concat]

/-- C6: when no message of the timeline is simultaneously authored by
the agent named in an `agent_output` event and still waiting, processing
that event leaves the whole hook state — timeline, queue, status,
counter — completely unchanged. -/
theorem agent_output_no_orphan (st : StreamState) (now : Nat) (name c : String)
    (h : ∀ m ∈ st.messages, (m.agent == some name && m.isWaiting) = false) :
    processEvent now (.agent_output name c) st = st := by
  show { st with messages := _ } = st
  have hmap : st.messages.map (fun m =>
      if m.agent == some name && m.isWaiting then
        { m with content := c, isWaiting := false, endTime := some now }
      else m) = st.messages :=
    map_eq_self_of_fixed _ st.messages (fun m hm => by rw [h m hm]; rfl)
  rw [hmap]

/-- C6 witness: a timeline with one finalized message by the agent and
one waiting message by a different agent is untouched. -/
theorem agent_output_no_orphan_witness :
    processEvent 9 (.agent_output "Layla" "x")
      { messages := [
          { id := "a-1", isUser := false, content := "done", agent := some "Layla" },
          { id := "b-2", isUser := false, content := "", isWaiting := true,
            agent := some "Nova" }] } =
      { messages := [
          { id := "a-1", isUser := false, content := "done", agent := some "Layla" },
          { id := "b-2", isUser := false, content := "", isWaiting := true,
            agent := some "Nova" }] } :=
  agent_output_no_orphan _ 9 "Layla" "x" (by decide)

/-- C2 counterexample: from the empty timeline, two `task_delegated`
events for "Layla" followed by `agent_output{agent_name:"Layla"}` mutate
BOTH waiting Layla messages, not only the latest one: the earlier
message (index 0) also has its content replaced and its waiting flag
cleared, contradicting "no other message in the timeline is altered". -/
theorem agent_output_latest_only_cex :
    (((run initialState [.ev 1 (.task_delegated "Layla" "t1"),
        .ev 2 (.task_delegated "Layla" "t2")]).messages[0]?).map
        (fun m => (m.content, m.isWaiting)) = some ("", true)) ∧
    (((processEvent 3 (.agent_output "Layla" "done")
        (run initialState [.ev 1 (.task_delegated "Layla" "t1"),
          .ev 2 (.task_delegated "Layla" "t2")])).messages[0]?).map
        (fun m => (m.content, m.isWaiting)) = some ("done", false)) := by
  decide

/-- C2 amended: an `agent_output` event finalizes EVERY message authored
by the matching agent that is still waiting — content set to the
payload, waiting flag cleared, end timestamp stamped — while every
message that is not a waiting message of that agent is left unchanged,
and the timeline length is preserved. -/
theorem agent_output_finalizes_every_matching (st : StreamState) (now : Nat)
    (name c : String) (i : Nat) :
    (processEvent now (.agent_output name c) st).messages.length = st.messages.length ∧
    (∀ m, st.messages[i]? = some m → (m.agent == some name && m.isWaiting) = true →
      (processEvent now (.agent_output name c) st).messages[i]? =
        some { m with content := c, isWaiting := false, endTime := some now }) ∧
    (∀ m, st.messages[i]? = some m → (m.agent == some name && m.isWaiting) = false →
      (processEvent now (.agent_output name c) st).messages[i]? = some m) := by
  refine ⟨by simp [processEvent], ?_, ?_⟩
  · intro m hm hc
    simp only [processEvent, List.getElem?_map, hm, Option.map_some']
    rw [if_pos hc]
  · intro m hm hc
    simp only [processEvent, List.getElem?_map, hm, Option.map_some']
    rw [if_neg (by simp [hc])]

/-- C2 amended, witness: with a waiting Layla message at index 0 and a
user message at index 1, the event finalizes index 0 and leaves index 1
unchanged. -/
theorem agent_output_finalizes_every_matching_witness :
    ((processEvent 9 (.agent_output "Layla" "done")
        { messages := [
            { id := "a-1", isUser := false, content := "", isWaiting := true,
              startTime := some 1, agent := some "Layla" },
            { id := "u-2", isUser := true, content := "hi" }] }).messages[0]? =
      some { id := "a-1", isUser := false, content := "done", isWaiting := false,
             startTime := some 1, endTime := some 9, agent := some "Layla" }) ∧
    ((processEvent 9 (.agent_output "Layla" "done")
        { messages := [
            { id := "a-1", isUser := false, content := "", isWaiting := true,
              startTime := some 1, agent := some "Layla" },
            { id := "u-2", isUser := true, content := "hi" }] }).messages[1]? =
      some { id := "u-2", isUser := true, content := "hi" }) :=
  ⟨(agent_output_finalizes_every_matching
      { messages := [
          { id := "a-1", isUser := false, content := "", isWaiting := true,
            startTime := some 1, agent := some "Layla" },
          { id := "u-2", isUser := true, content := "hi" }] } 9 "Layla" "done" 0).2.1
      { id := "a-1", isUser := false, content := "", isWaiting := true,
        startTime := some 1, agent := some "Layla" } rfl (by decide),
   (agent_output_finalizes_every_matching
      { messages := [
          { id := "a-1", isUser := false, content := "", isWaiting := true,
            startTime := some 1, agent := some "Layla" },
          { id := "u-2", isUser := true, content := "hi" }] } 9 "Layla" "done" 1).2.2
      { id := "u-2", isUser := true, content := "hi" } rfl (by decide)⟩

/-- C7: an unclassified (default-kind) raw-text event with payload `c`
always appends `c` to the reveal queue, and: converts a waiting last
message in place to streaming with empty content; appends exactly one
new streaming message when the timeline is empty, the last message is a
user message, or the last message is finalized; creates nothing when the
last message is already streaming.  In particular "Hel" then "lo" on the
empty timeline create exactly one streaming message whose content after
the ticks drain is "Hello" with an empty queue. -/
theorem default_event_streams (st : StreamState) (now : Nat) (c : String) :
    (processEvent now (.unclassified (some c)) st).streamQueue =
      st.streamQueue ++ c.toList ∧
    (match st.messages.getLast? with
     | some last =>
         if last.isWaiting then
           (processEvent now (.unclassified (some c)) st).messages =
             st.messages.dropLast ++
               [{ last with content := "", isWaiting := false, isStreaming := true }]
         else if last.isUser || (!last.isStreaming && !last.isWaiting) then
           (processEvent now (.unclassified (some c)) st).messages =
             st.messages ++ [streamingMessage now (st.idCounter + 1)]
         else
           (processEvent now (.unclassified (some c)) st).messages = st.messages
     | none =>
         (processEvent now (.unclassified (some c)) st).messages =
           [streamingMessage now (st.idCounter + 1)]) ∧
    ((run initialState [.ev 1 (.unclassified (some "Hel")),
        .ev 2 (.unclassified (some "lo"))]).messages.length = 1 ∧
     ((run initialState [.ev 1 (.unclassified (some "Hel")),
        .ev 2 (.unclassified (some "lo"))]).messages.map (·.isStreaming)) = [true] ∧
     ((tick^[5] (run initialState [.ev 1 (.unclassified (some "Hel")),
        .ev 2 (.unclassified (some "lo"))])).messages.map (·.content)) = ["Hello"] ∧
     (tick^[5] (run initialState [.ev 1 (.unclassified (some "Hel")),
        .ev 2 (.unclassified (some "lo"))])).streamQueue = []) := by
  refine ⟨?_, ?_, by decide⟩
  · rcases hl : st.messages.getLast? with _ | last
    · simp [processEvent, hl]
    · cases h1 : last.isWaiting
      · cases hu : last.isUser
        · cases hs : last.isStreaming
          · simp [processEvent, hl, h1, hu, hs]
          · simp [processEvent, hl, h1, hu, hs]
        · simp [processEvent, hl, h1, hu]
      · simp [processEvent, hl, h1]
  · rcases hl : st.messages.getLast? with _ | last
    · simp [processEvent, hl, List.getLast?_eq_none_iff.mp hl]
    · cases h1 : last.isWaiting
      · cases hu : last.isUser
        · cases hs : last.isStreaming
          · simp [processEvent, hl, h1, hu, hs]
          · simp [processEvent, hl, h1, hu, hs]
        · simp [processEvent, hl, h1, hu]
      · simp [processEvent, hl, h1]

theorem messages_length_mono (st : StreamState) (s : Step) :
    st.messages.length ≤ (applyStep st s).messages.length := by
  have key : ∀ (l : List ChatMessage) (b : ChatMessage),
      l.length ≤ (l.dropLast ++ [b]).length := by
    intro l b
    simp only [List.length_append, List.length_dropLast, List.length_cons,
      List.length_nil]
    omega
  cases s with
  | tick =>
      show st.messages.length ≤ (tick st).messages.length
      unfold tick
      split
      · exact le_refl _
      · split
        · split
          · exact key _ _
          · exact le_refl _
        · exact le_refl _
  | ev now e =>
      show st.messages.length ≤ (processEvent now e st).messages.length
      cases e
      case agent_start a s' =>
        simp only [processEvent]
        split
        · simp
        · exact le_refl _
      case thoughts_and_tasks c t => exact le_refl _
      case task_delegated n t => simp [processEvent]
      case agent_output n c => simp [processEvent]
      case simplification_complete n c =>
        simp only [processEvent]
        split
        · split
          · exact key _ _
          · simp
        · simp
      case validation_score n s' => exact le_refl _
      case loop_retry m => exact le_refl _
      case final_answer c =>
        simp only [processEvent]
        split
        · split
          · exact key _ _
          · simp
        · simp
      case system_abort m => simp [processEvent]
      case error m => simp [processEvent]
      case unclassified c =>
        simp only [processEvent]
        split
        · split
          · exact key _ _
          · split
            · simp
            · exact le_refl _
        · simp

theorem ids_dropLast_append {l : List ChatMessage} {last b : ChatMessage}
    (hl : l.getLast? = some last) (hid : b.id = last.id) {i : Nat} (hi : i < l.length) :
    (((l.dropLast ++ [b])[i]?).map (·.id)) = ((l[i]?).map (·.id)) := by
  have hne := ne_nil_of_getLast?_eq_some hl
  have h1 : 1 ≤ l.length := List.length_pos.mpr hne
  rcases Nat.lt_or_ge i (l.length - 1) with h | h
  · rw [getElem?_dropLast_append_of_lt h]
  · have hie : i = l.length - 1 := by omega
    subst hie
    rw [getElem?_dropLast_append_last]
    rw [← List.getLast?_eq_getElem?, hl]
    simp [hid]

theorem step_preserves_ids (st : StreamState) (s : Step) (i : Nat)
    (hi : i < st.messages.length) :
    (((applyStep st s).messages[i]?).map (·.id)) = ((st.messages[i]?).map (·.id)) := by
  cases s with
  | tick =>
      show (((tick st).messages[i]?).map (·.id)) = _
      unfold tick
      split
      · rfl
      · split
        · split
          · rename_i last hlast _
            refine ids_dropLast_append hlast ?_ hi
            rfl
          · rfl
        · rfl
  | ev now e =>
      show (((processEvent now e st).messages[i]?).map (·.id)) = _
      cases e
      case agent_start a s' =>
        simp only [processEvent]
        split
        · rw [List.getElem?_append_left hi]
        · rfl
      case thoughts_and_tasks c t => rfl
      case task_delegated n t =>
        simp only [processEvent]
        rw [List.getElem?_append_left hi]
      case agent_output n c =>
        simp only [processEvent, List.getElem?_map]
        cases hm : st.messages[i]?
        · rfl
        · simp only [Option.map_some']
          split <;> rfl
      case simplification_complete n c =>
        simp only [processEvent]
        split
        · split
          · rename_i last hlast _
            refine ids_dropLast_append hlast ?_ hi
            rfl
          · rw [List.getElem?_append_left hi]
        · rw [List.getElem?_append_left hi]
      case validation_score n s' => rfl
      case loop_retry m => rfl
      case final_answer c =>
        simp only [processEvent]
        split
        · split
          · rename_i last hlast _
            refine ids_dropLast_append hlast ?_ hi
            rfl
          · rw [List.getElem?_append_left hi]
        · rw [List.getElem?_append_left hi]
      case system_abort m =>
        simp only [processEvent]
        rw [List.getElem?_append_left hi]
      case error m =>
        simp only [processEvent]
        rw [List.getElem?_append_left hi]
      case unclassified c =>
        simp only [processEvent]
        split
        · split
          · rename_i last hlast _
            refine ids_dropLast_append hlast ?_ hi
            rfl
          · split
            · rw [List.getElem?_append_left hi]
            · rfl
        · rw [List.getElem?_append_left hi]

/-- C5: the timeline is append-only across any sequence of inbound
events and reveal ticks: its length never decreases, and each single
step leaves every already-present position holding a message with the
same id (messages are only mutated in place or appended, never removed
or reordered). -/
theorem timeline_append_only (st : StreamState) (steps : List Step) :
    st.messages.length ≤ (run st steps).messages.length ∧
    (∀ s : Step, ∀ i : Nat, i < st.messages.length →
      (((applyStep st s).messages[i]?).map (·.id)) = ((st.messages[i]?).map (·.id))) := by
  constructor
  · induction steps generalizing st with
    | nil => exact le_refl _
    | cons s rest ih =>
        exact le_trans (messages_length_mono st s) (ih (applyStep st s))
  · exact fun s i hi => step_preserves_ids st s i hi

/-- C5 witness: a one-message streaming timeline with a queued character,
ticked once: the length does not decrease and the message id at index 0
is preserved. -/
theorem timeline_append_only_witness :
    (tickWitnessState.messages.length ≤ (run tickWitnessState [Step.tick]).messages.length) ∧
    (((applyStep tickWitnessState Step.tick).messages[0]?).map (·.id) =
      ((tickWitnessState.messages[0]?).map (·.id))) :=
  ⟨(timeline_append_only tickWitnessState [Step.tick]).1,
   (timeline_append_only tickWitnessState [Step.tick]).2 Step.tick 0 (by decide)⟩

/-- C9: `apiClient` throws when the base endpoint is not set or the
session's user identity is absent; otherwise it attaches the identity as
the `X-User-Id` header of the request it builds.  The only silent
empty-state substitution is the conversation `queryFn` resolving to the
empty conversation, which happens exactly when there is no session or no
thread id. -/
theorem apiClient_fails_fast_and_injects_identity (base : Option String) (ep me : String)
    (sess : Option Session) (d : Option String) (tid : Option String) :
    (truthyStr base = false →
      apiClient base ep me sess d = .error "AGENT_SERVER_BASE_URL is not defined.") ∧
    (truthyStr base = true → truthyStr (sessionUserId sess) = false →
      apiClient base ep me sess d = .error "User session is not available.") ∧
    (∀ req, apiClient base ep me sess d = .ok req →
      req.xUserId = (sessionUserId sess).getD "" ∧ truthyStr (sessionUserId sess) = true) ∧
    (truthyStr base = true → truthyStr (sessionUserId sess) = true →
      apiClient base ep me sess d = .ok {
        url := base.getD "" ++ ep
        method := me
        contentType := "application/json"
        xUserId := (sessionUserId sess).getD ""
        body := d }) ∧
    (conversationQueryFn base sess tid = .resolved { thread_id := "", messages := [] } ↔
      (sess.isSome = false ∨ truthyStr tid = false)) := by
  refine ⟨?_, ?_, ?_, ?_, ?_⟩
  · intro hb
    simp [apiClient, hb]
  · intro hb hu
    simp [apiClient, hb, hu]
  · intro req hok
    unfold apiClient at hok
    by_cases hb : truthyStr base
    · by_cases hu : truthyStr (sessionUserId sess)
      · simp only [hb, hu, Bool.not_true, Bool.false_eq_true, if_false] at hok
        exact ⟨by rw [← Except.ok.inj hok], hu⟩
      · simp [hb, hu] at hok
    · simp [hb] at hok
  · intro hb hu
    simp [apiClient, hb, hu]
  · unfold conversationQueryFn
    by_cases hc : (!(sess.isSome) || !(truthyStr tid)) = true
    · rw [if_pos hc]
      simp only [Bool.or_eq_true, Bool.not_eq_true'] at hc
      exact iff_of_true rfl hc
    · rw [if_neg hc]
      simp only [Bool.or_eq_true, Bool.not_eq_true'] at hc
      push_neg at hc
      constructor
      · intro h
        exfalso
        rcases hq : apiClient base ("/conversation/" ++ tid.getD "") "GET" sess none with m | r
        · rw [hq] at h
          exact QueryOutcome.noConfusion h
        · rw [hq] at h
          exact QueryOutcome.noConfusion h
      · intro h
        rcases h with h | h
        · exact absurd h (by simp [hc.1])
        · exact absurd h (by simp [hc.2])

/-- C9 witness: a missing base URL throws, a present base URL with an
empty user id throws, a full identity produces the request with the
`X-User-Id` header set, and a missing thread id resolves to the empty
conversation. -/
theorem apiClient_fails_fast_witness :
    (apiClient none "/history" "GET" none none =
      .error "AGENT_SERVER_BASE_URL is not defined.") ∧
    (apiClient (some "http://a") "/history" "GET"
        (some { user := some { id := some "" } }) none =
      .error "User session is not available.") ∧
    (apiClient (some "http://a") "/history" "GET"
        (some { user := some { id := some "u1" } }) none =
      .ok { url := "http://a" ++ "/history", method := "GET",
            contentType := "application/json", xUserId := "u1", body := none }) ∧
    (conversationQueryFn (some "http://a") (some { user := some { id := some "u1" } }) none =
      .resolved { thread_id := "", messages := [] }) :=
  ⟨(apiClient_fails_fast_and_injects_identity none "/history" "GET" none none none).1
      (by decide),
   (apiClient_fails_fast_and_injects_identity (some "http://a") "/history" "GET"
      (some { user := some { id := some "" } }) none none).2.1 (by decide) (by decide),
   (apiClient_fails_fast_and_injects_identity (some "http://a") "/history" "GET"
      (some { user := some { id := some "u1" } }) none none).2.2.2.1 (by decide) (by decide),
   (apiClient_fails_fast_and_injects_identity (some "http://a") "/history" "GET"
      (some { user := some { id := some "u1" } }) none none).2.2.2.2.mpr
      (Or.inr (by decide))⟩
